import Mathlib

/-!
Shallow embedding of `crm/fcrm/doctype/erpnext_crm_settings/erpnext_crm_settings.py`.

The module is configuration-driven glue code between a CRM site and an ERPNext
site.  We model the externally persisted state touched by the module as an
explicit `World` record (the settings singleton, the installed-apps list, the
existing Property Setter and CRM Form Script records, the stored deals and the
error log), and the outcome of each interaction with the remote ERPNext site as
a `RemoteEnv` oracle.  Stateful functions return the new world, the trace of
external effects they performed, and either a result or an error.  `frappe.throw`
is modelled as `Err.thrown` (a user-facing message); an exception that escapes
uncaught is modelled as `Err.raw` carrying the underlying exception text.
`json.dumps` on the projected contact list is an external serializer and is
modelled as the identity embedding of the projected list into the payload.
-/

namespace ERPNextCRM

/-- The `ERPNext CRM Settings` singleton record. -/
structure Settings where
  enabled : Bool
  is_erpnext_in_the_current_site : Bool
  erpnext_site_url : String
  api_key : String
  api_secret : String
  erpnext_company : String
  deriving DecidableEq, Repr

/-- A row of a deal's `contacts` child table, with the fields this module reads. -/
structure Contact where
  contact : String
  full_name : String
  email : String
  mobile_no : String
  gender : String
  is_primary : Bool
  deriving DecidableEq, Repr

/-- The fields of a `CRM Deal` document read by this module. -/
structure Deal where
  name : String
  organization : String
  lead_name : String
  no_of_employees : String
  deal_owner : String
  territory : String
  industry : String
  website : String
  annual_revenue : String
  status : String
  currency : String
  contacts : List Contact
  deriving DecidableEq, Repr

/-- The projected contact record built by `get_contacts` (a Python dict in the
source, one record per contact row). -/
structure ContactProjection where
  contact : String
  full_name : String
  email : String
  mobile_no : String
  gender : String
  is_primary : Bool
  deriving DecidableEq, Repr

/-- The payload posted to `create_prospect_against_crm_deal`. -/
structure ProspectPayload where
  organization : String
  lead_name : String
  no_of_employees : String
  deal_owner : String
  crm_deal : String
  territory : String
  industry : String
  website : String
  annual_revenue : String
  contacts : List ContactProjection
  erpnext_company : String
  deriving DecidableEq, Repr

/-- The customer payload built by `create_customer_in_erpnext`. -/
structure CustomerPayload where
  customer_name : String
  customer_group : String
  customer_type : String
  territory : String
  default_currency : String
  industry : String
  website : String
  crm_deal : String
  contacts : List ContactProjection
  deriving DecidableEq, Repr

/-- One externally visible effect performed by the module. -/
inductive Effect where
  /-- Construction of a `FrappeClient` against the remote site. -/
  | remoteConnect (site_url api_key api_secret : String)
  /-- `client.post_api` of `create_prospect_against_crm_deal` with its payload. -/
  | remotePostProspect (p : ProspectPayload)
  /-- `client.post_api` of `create_customer` with its payload. -/
  | remotePostCustomer (c : CustomerPayload)
  /-- `client.post_api` of `create_custom_fields_for_frappe_crm`. -/
  | remotePostCustomFields
  /-- In-process call of `create_custom_fields_for_frappe_crm`. -/
  | localCreateCustomFields
  /-- In-process call of `erpnext.crm.frappe_crm_api.create_customer`. -/
  | localCreateCustomer (c : CustomerPayload)
  /-- `make_property_setter`, keyed by the property setter name. -/
  | makePropertySetter (psname : String)
  /-- `frappe.get_doc(...).insert()` of a `CRM Form Script` record. -/
  | insertFormScript (fsname script : String)
  deriving DecidableEq, Repr

/-- How a call terminates abnormally: `thrown` is `frappe.throw` with a
user-facing message, `raw` is an exception propagating uncaught. -/
inductive Err where
  | thrown (msg : String)
  | raw (exc : String)
  deriving DecidableEq, Repr

/-- The externally persisted state read and written by the module. -/
structure World where
  settings : Settings
  installed_apps : List String
  /-- Names of existing `Property Setter` records. -/
  property_setters : List String
  /-- Existing `CRM Form Script` records as (name, script body). -/
  form_scripts : List (String × String)
  /-- Stored `CRM Deal` documents, keyed by name. -/
  deals : List (String × Deal)
  /-- `frappe.log_error` sink: (traceback text, title). -/
  error_log : List (String × String)
  /-- Base URL of the current (CRM) site, used by `get_url_to_form`. -/
  site_base_url : String
  deriving DecidableEq, Repr

/-- Oracle for the outcome of each external interaction with the remote
ERPNext site: client construction and the three `post_api` endpoints. -/
structure RemoteEnv where
  connect_result : Except String Unit
  custom_fields_result : Except String Unit
  prospect_result : Except String String
  customer_result : Except String Unit

/-- `frappe.log_error(traceback, title)`: append an entry to the error log. -/
def log_error (w : World) (traceback title : String) : World :=
  { w with error_log := w.error_log ++ [(traceback, title)] }

/-- `frappe.get_traceback()` at the point an exception `exc` is being handled:
the text contains the underlying exception. -/
def get_traceback (exc : String) : String :=
  "Traceback (most recent call last): " ++ exc

/-- `frappe.get_doc("CRM Deal", crm_deal)`, as a lookup in the stored deals. -/
def lookup_deal (w : World) (crm_deal : String) : Option Deal :=
  w.deals.lookup crm_deal

/-- Slugification of a doctype name as done by the framework URL helper:
lowercase, spaces replaced by dashes. -/
def doctype_slug (s : String) : String :=
  String.mk (s.data.map (fun ch => if ch = ' ' then '-' else ch.toLower))

/-- `frappe.utils.get_url_to_form(doctype)` (external framework helper): base
URL of the current site followed by `/app/` and the slugified doctype. -/
def get_url_to_form (w : World) (doctype : String) : String :=
  w.site_base_url ++ "/app/" ++ doctype_slug doctype

/-- `get_erpnext_site_client(erpnext_crm_settings)`: construct a `FrappeClient`
from the settings' site URL and API credentials.  Returns the connection
effect and the construction outcome supplied by the oracle. -/
def get_erpnext_site_client (env : RemoteEnv) (s : Settings) :
    Effect × Except String Unit :=
  (Effect.remoteConnect s.erpnext_site_url s.api_key s.api_secret,
   env.connect_result)

/-- The projection of one contact row performed inside the `get_contacts` loop. -/
def project_contact (c : Contact) : ContactProjection :=
  { contact := c.contact
    full_name := c.full_name
    email := c.email
    mobile_no := c.mobile_no
    gender := c.gender
    is_primary := c.is_primary }

/-- `get_contacts(doc)`: start from an empty list and append the projection of
each contact row in order, as the Python loop does. -/
def get_contacts (doc : Deal) : List ContactProjection :=
  doc.contacts.foldl (fun acc c => acc ++ [project_contact c]) []

/-- Message of `frappe.throw` on a caught failure in `create_prospect_in_remote_site`. -/
def prospect_generic_error : String :=
  "Error while creating prospect in ERPNext, check error log for more details"

/-- `frappe.log_error` title used in `create_prospect_in_remote_site`. -/
def prospect_log_title (s : Settings) : String :=
  "Error while creating prospect in remote site: " ++ s.erpnext_site_url

/-- The prospect payload built by `create_prospect_in_remote_site`. -/
def prospect_payload (doc : Deal) (s : Settings) : ProspectPayload :=
  { organization := doc.organization
    lead_name := doc.lead_name
    no_of_employees := doc.no_of_employees
    deal_owner := doc.deal_owner
    crm_deal := doc.name
    territory := doc.territory
    industry := doc.industry
    website := doc.website
    annual_revenue := doc.annual_revenue
    contacts := get_contacts doc
    erpnext_company := s.erpnext_company }

/-- `create_prospect_in_remote_site(crm_deal, erpnext_crm_settings)`.  The whole
body — client construction, deal fetch, payload build, `post_api` — sits inside
the `try`: any failure is logged (traceback tagged with the remote site URL)
and converted to the generic user-facing error. -/
def create_prospect_in_remote_site (w : World) (env : RemoteEnv)
    (crm_deal : String) (s : Settings) :
    World × List Effect × Except Err String :=
  let client := get_erpnext_site_client env s
  match client.2 with
  | Except.error e =>
      (log_error w (get_traceback e) (prospect_log_title s), [client.1],
       Except.error (Err.thrown prospect_generic_error))
  | Except.ok _ =>
    match lookup_deal w crm_deal with
    | none =>
        (log_error w (get_traceback ("CRM Deal " ++ crm_deal ++ " not found"))
           (prospect_log_title s), [client.1],
         Except.error (Err.thrown prospect_generic_error))
    | some doc =>
      match env.prospect_result with
      | Except.error e =>
          (log_error w (get_traceback e) (prospect_log_title s),
           [client.1, Effect.remotePostProspect (prospect_payload doc s)],
           Except.error (Err.thrown prospect_generic_error))
      | Except.ok pid =>
          (w, [client.1, Effect.remotePostProspect (prospect_payload doc s)],
           Except.ok pid)

/-- Message of `frappe.throw` when `get_quotation_url` is called with the
integration disabled. -/
def quotation_disabled_error : String :=
  "ERPNext is not integrated with the CRM"

/-- `get_quotation_url(crm_deal, organization)`: throw if disabled; if the ERP
app is in the current site build a local new-quotation URL with
`quotation_to=CRM Deal` and the deal id as `party_name`; otherwise create a
prospect in the remote site first and build the URL on the remote base URL
with `quotation_to=Prospect` and the returned prospect id as `party_name`. -/
def get_quotation_url (w : World) (env : RemoteEnv)
    (crm_deal organization : String) :
    World × List Effect × Except Err String :=
  let s := w.settings
  if s.enabled = false then
    (w, [], Except.error (Err.thrown quotation_disabled_error))
  else if s.is_erpnext_in_the_current_site then
    let quotation_url := get_url_to_form w "Quotation"
    (w, [],
     Except.ok (quotation_url ++ "/new?quotation_to=CRM Deal&crm_deal=" ++
       crm_deal ++ "&party_name=" ++ crm_deal))
  else
    let site_url := s.erpnext_site_url
    let quotation_url := site_url ++ "/app/quotation"
    match create_prospect_in_remote_site w env crm_deal s with
    | (w2, effs, Except.error e) => (w2, effs, Except.error e)
    | (w2, effs, Except.ok prospect) =>
        (w2, effs,
         Except.ok (quotation_url ++ "/new?quotation_to=Prospect&crm_deal=" ++
           crm_deal ++ "&party_name=" ++ prospect))

/-- Message of `frappe.throw` on a caught failure in `create_customer_in_remote_site`. -/
def customer_generic_error : String :=
  "Error while creating customer in ERPNext, check error log for more details"

/-- `frappe.log_error` title used in `create_customer_in_remote_site` (untagged
with the site URL, unlike the prospect and custom-field paths). -/
def customer_log_title : String :=
  "Error while creating customer in remote site"

/-- The customer payload built by `create_customer_in_erpnext`. -/
def customer_payload (doc : Deal) : CustomerPayload :=
  { customer_name := doc.organization
    customer_group := "All Customer Groups"
    customer_type := "Company"
    territory := doc.territory
    default_currency := doc.currency
    industry := doc.industry
    website := doc.website
    crm_deal := doc.name
    contacts := get_contacts doc }

/-- `create_customer_in_remote_site(customer, erpnext_crm_settings)`.  In the
source the client is constructed BEFORE the `try` block, so a construction
failure propagates raw (no log entry, no generic message); only the `post_api`
failure is caught, logged and converted to the generic user-facing error. -/
def create_customer_in_remote_site (w : World) (env : RemoteEnv)
    (customer : CustomerPayload) (s : Settings) :
    World × List Effect × Except Err Unit :=
  let client := get_erpnext_site_client env s
  match client.2 with
  | Except.error e => (w, [client.1], Except.error (Err.raw e))
  | Except.ok _ =>
    match env.customer_result with
    | Except.error e =>
        (log_error w (get_traceback e) customer_log_title,
         [client.1, Effect.remotePostCustomer customer],
         Except.error (Err.thrown customer_generic_error))
    | Except.ok _ =>
        (w, [client.1, Effect.remotePostCustomer customer], Except.ok ())

/-- `create_customer_in_erpnext(doc, method)`: read the settings singleton,
return immediately unless enabled and the deal status is exactly "Won";
otherwise build the customer payload and dispatch locally or remotely. -/
def create_customer_in_erpnext (w : World) (env : RemoteEnv)
    (doc : Deal) (method : String) :
    World × List Effect × Except Err Unit :=
  let s := w.settings
  if s.enabled = false ∨ doc.status ≠ "Won" then
    (w, [], Except.ok ())
  else
    let customer := customer_payload doc
    if s.is_erpnext_in_the_current_site then
      (w, [Effect.localCreateCustomer customer], Except.ok ())
    else
      create_customer_in_remote_site w env customer s

/-- Message of `frappe.throw` in `validate_if_erpnext_installed`. -/
def erpnext_not_installed_error : String :=
  "ERPNext is not installed in the current site"

/-- `validate_if_erpnext_installed`: when the ERP app is expected in the
current site, throw if "erpnext" is absent from the installed apps. -/
def validate_if_erpnext_installed (w : World) (s : Settings) : Except Err Unit :=
  if s.is_erpnext_in_the_current_site then
    if w.installed_apps.contains "erpnext" = false then
      Except.error (Err.thrown erpnext_not_installed_error)
    else Except.ok ()
  else Except.ok ()

/-- Name key of the quotation-filter property setter. -/
def quotation_to_property_setter_name : String :=
  "Quotation-quotation_to-link_filters"

/-- `add_quotation_to_option`: when co-located, create the quotation-filter
property setter only if no record with its deterministic name exists. -/
def add_quotation_to_option (w : World) (s : Settings) : World × List Effect :=
  if s.is_erpnext_in_the_current_site then
    if w.property_setters.contains quotation_to_property_setter_name then
      (w, [])
    else
      ({ w with property_setters :=
           w.property_setters ++ [quotation_to_property_setter_name] },
       [Effect.makePropertySetter quotation_to_property_setter_name])
  else (w, [])

/-- Message of `frappe.throw` on a caught failure in `create_custom_fields_in_remote_site`. -/
def custom_fields_generic_error : String :=
  "Error while creating custom field in ERPNext, check error log for more details"

/-- `frappe.log_error` title used in `create_custom_fields_in_remote_site`. -/
def custom_fields_log_title (s : Settings) : String :=
  "Error while creating custom field in the remote erpnext site: " ++
    s.erpnext_site_url

/-- `create_custom_fields_in_remote_site`: the client is constructed before the
`try` block (construction failure propagates raw); a `post_api` failure is
logged and converted to the generic user-facing error. -/
def create_custom_fields_in_remote_site (w : World) (env : RemoteEnv)
    (s : Settings) : World × List Effect × Except Err Unit :=
  let client := get_erpnext_site_client env s
  match client.2 with
  | Except.error e => (w, [client.1], Except.error (Err.raw e))
  | Except.ok _ =>
    match env.custom_fields_result with
    | Except.error e =>
        (log_error w (get_traceback e) (custom_fields_log_title s),
         [client.1, Effect.remotePostCustomFields],
         Except.error (Err.thrown custom_fields_generic_error))
    | Except.ok _ =>
        (w, [client.1, Effect.remotePostCustomFields], Except.ok ())

/-- `create_custom_fields`: in-process call when co-located, remote `post_api`
otherwise. -/
def create_custom_fields (w : World) (env : RemoteEnv) (s : Settings) :
    World × List Effect × Except Err Unit :=
  if s.is_erpnext_in_the_current_site then
    (w, [Effect.localCreateCustomFields], Except.ok ())
  else
    create_custom_fields_in_remote_site w env s

/-- Name key of the CRM Form Script record. -/
def crm_form_script_name : String :=
  "Create Quotation from CRM Deal"

/-- `get_crm_form_script()`: the client-side script body constant (braces and
apostrophes written as escapes). -/
def get_crm_form_script : String :=
  String.intercalate "\n"
    [ ""
    , "function setupForm(\x7b doc, call, $dialog, updateField, createToast \x7d) \x7b"
    , "\tlet actions = [];"
    , "\tif (![\"Lost\", \"Won\"].includes(doc?.status)) \x7b"
    , "\t\tactions.push(\x7b"
    , "\t\t\tlabel: __(\"Create Quotation\"),"
    , "\t\t\tonClick: async () => \x7b"
    , "\t\t\t\tlet quotation_url = await call("
    , "\t\t\t\t\t\"crm.fcrm.doctype.erpnext_crm_settings.erpnext_crm_settings.get_quotation_url\", "
    , "\t\t\t\t\t\x7b"
    , "\t\t\t\t\t\tcrm_deal: doc.name,"
    , "\t\t\t\t\t\torganization: doc.organization"
    , "\t\t\t\t\t\x7d"
    , "\t\t\t\t);"
    , ""
    , "\t\t\t\tif (quotation_url) \x7b"
    , "\t\t\t\t\twindow.open(quotation_url, \x27_blank\x27);"
    , "\t\t\t\t\x7d"
    , "\t\t\t\x7d"
    , "\t\t\x7d)"
    , "\t\x7d"
    , "\t"
    , "\treturn \x7b"
    , "\t\tactions: actions,"
    , "\t\x7d;"
    , "\x7d"
    , "" ]

/-- `create_crm_form_script`: insert the named CRM Form Script only if no
record with that exact name exists (a name-based, not content-based check). -/
def create_crm_form_script (w : World) : World × List Effect :=
  if (w.form_scripts.map Prod.fst).contains crm_form_script_name then
    (w, [])
  else
    ({ w with form_scripts :=
         w.form_scripts ++ [(crm_form_script_name, get_crm_form_script)] },
     [Effect.insertFormScript crm_form_script_name get_crm_form_script])

/-- `ERPNextCRMSettings.validate`: when enabled, run the four provisioning
steps in order, stopping at the first failure; a no-op when disabled. -/
def validate (w : World) (env : RemoteEnv) :
    World × List Effect × Except Err Unit :=
  let s := w.settings
  if s.enabled then
    match validate_if_erpnext_installed w s with
    | Except.error e => (w, [], Except.error e)
    | Except.ok _ =>
      let step2 := add_quotation_to_option w s
      match create_custom_fields step2.1 env s with
      | (w3, effs3, Except.error e) => (w3, step2.2 ++ effs3, Except.error e)
      | (w3, effs3, Except.ok _) =>
        let step4 := create_crm_form_script w3
        (step4.1, step2.2 ++ effs3 ++ step4.2, Except.ok ())
  else (w, [], Except.ok ())

/-- Recognizer for a remote prospect-creation call in an effect trace. -/
def is_prospect_call : Effect → Bool
  | Effect.remotePostProspect _ => true
  | _ => false

/-! Concrete sample data used to evaluate the definitions at closed inputs. -/

/-- A concrete contact row. -/
def sample_contact : Contact :=
  { contact := "CONT-0001"
    full_name := "Jane Roe"
    email := "jane@example.com"
    mobile_no := "5550001"
    gender := "Female"
    is_primary := true }

/-- A concrete won deal. -/
def sample_deal : Deal :=
  { name := "CRM-DEAL-0001"
    organization := "Acme"
    lead_name := "Jane Roe"
    no_of_employees := "11-50"
    deal_owner := "admin@example.com"
    territory := "Rest Of The World"
    industry := "Software"
    website := "https://acme.example.com"
    annual_revenue := "100000"
    status := "Won"
    currency := "USD"
    contacts := [sample_contact] }

/-- The sample deal, still open. -/
def open_deal : Deal := { sample_deal with status := "Open" }

/-- Settings pointing at a remote ERPNext site. -/
def remote_settings : Settings :=
  { enabled := true
    is_erpnext_in_the_current_site := false
    erpnext_site_url := "https://erp.example.com"
    api_key := "key123"
    api_secret := "secret456"
    erpnext_company := "Acme Co" }

/-- Settings for a co-located ERPNext. -/
def local_settings : Settings :=
  { remote_settings with is_erpnext_in_the_current_site := true }

/-- Settings with the integration switched off. -/
def disabled_settings : Settings := { remote_settings with enabled := false }

/-- A world holding the sample deal under the given settings. -/
def mk_world (s : Settings) : World :=
  { settings := s
    installed_apps := ["frappe", "crm", "erpnext"]
    property_setters := []
    form_scripts := []
    deals := [("CRM-DEAL-0001", sample_deal)]
    error_log := []
    site_base_url := "https://crm.example.com" }

/-- The sample world with remote settings. -/
def remote_world : World := mk_world remote_settings

/-- The sample world with co-located settings. -/
def local_world : World := mk_world local_settings

/-- A co-located world where the ERP app is absent from the installed apps. -/
def no_erpnext_world : World :=
  { mk_world local_settings with installed_apps := ["frappe", "crm"] }

/-- A co-located world where both name-keyed records already exist, the form
script with a body that differs from the script constant. -/
def provisioned_world : World :=
  { mk_world local_settings with
      property_setters := [quotation_to_property_setter_name]
      form_scripts := [(crm_form_script_name, "customized body")] }

/-- A remote environment where every interaction succeeds. -/
def env_ok : RemoteEnv :=
  { connect_result := Except.ok ()
    custom_fields_result := Except.ok ()
    prospect_result := Except.ok "PROSP-0001"
    customer_result := Except.ok () }

/-- A remote environment where client construction succeeds but every
`post_api` call raises. -/
def env_post_fail : RemoteEnv :=
  { connect_result := Except.ok ()
    custom_fields_result := Except.error "ConnectionError: connection refused"
    prospect_result := Except.error "ConnectionError: connection refused"
    customer_result := Except.error "ConnectionError: connection refused" }

/-- A remote environment where client construction itself raises. -/
def env_connect_fail : RemoteEnv :=
  { connect_result := Except.error "AuthError: invalid api key"
    custom_fields_result := Except.ok ()
    prospect_result := Except.ok "PROSP-0001"
    customer_result := Except.ok () }

/-! Helper lemmas shared by the claim theorems. -/

/-- String append is associative. -/
theorem str_append_assoc : ∀ (a b c : String), (a ++ b) ++ c = a ++ (b ++ c)
  | ⟨d1⟩, ⟨d2⟩, ⟨d3⟩ => congrArg String.mk (List.append_assoc d1 d2 d3)

/-- The framework URL for the Quotation form is the base URL followed by
`/app/quotation`. -/
theorem get_url_to_form_quotation (w : World) :
    get_url_to_form w "Quotation" = w.site_base_url ++ "/app/quotation" := by
  rw [get_url_to_form, str_append_assoc]; rfl

/-- The append-in-a-loop of `get_contacts` is a map. -/
theorem foldl_append_eq_map {α β : Type} (f : α → β) :
    ∀ (l : List α) (acc : List β),
      l.foldl (fun acc c => acc ++ [f c]) acc = acc ++ l.map f
  | [], acc => by simp
  | x :: xs, acc => by
      simp only [List.foldl_cons, List.map_cons, foldl_append_eq_map f xs,
        List.append_assoc, List.singleton_append]

/-- `create_customer_in_erpnext` returns immediately when the integration is
disabled or the deal status is not exactly "Won". -/
theorem create_customer_noop_aux (w : World) (env : RemoteEnv) (doc : Deal)
    (method : String) (h : w.settings.enabled = false ∨ doc.status ≠ "Won") :
    create_customer_in_erpnext w env doc method = (w, [], Except.ok ()) := by
  unfold create_customer_in_erpnext
  rw [if_pos h]

/-- `validate` is the identity when the integration is disabled. -/
theorem validate_disabled_aux (w : World) (env : RemoteEnv)
    (h : w.settings.enabled = false) :
    validate w env = (w, [], Except.ok ()) := by
  simp [validate, h]

/-! Claim theorems. -/

/-- Claim C2: with the integration enabled and ERPNext in the current site,
`get_quotation_url` returns the local new-quotation URL whose query string is
`quotation_to=CRM Deal&crm_deal=<deal id>&party_name=<deal id>`, with the deal
id itself as `party_name`, and mutates no state (the world is unchanged and no
external effect is performed). -/
theorem get_quotation_url_colocated_spec
    (w : World) (env : RemoteEnv) (crm_deal organization : String)
    (hen : w.settings.enabled = true)
    (hloc : w.settings.is_erpnext_in_the_current_site = true) :
    get_quotation_url w env crm_deal organization =
      (w, [],
       Except.ok (w.site_base_url ++ "/app/quotation" ++
         "/new?quotation_to=CRM Deal&crm_deal=" ++ crm_deal ++
         "&party_name=" ++ crm_deal)) := by
  simp only [get_quotation_url, hen, hloc, get_url_to_form_quotation, if_true,
    Bool.true_eq_false, if_false]

/-- Witness for C2 at a concrete co-located world and deal id. -/
theorem get_quotation_url_colocated_spec_witness :
    get_quotation_url local_world env_ok "CRM-DEAL-0001" "Acme" =
      (local_world, [],
       Except.ok (local_world.site_base_url ++ "/app/quotation" ++
         "/new?quotation_to=CRM Deal&crm_deal=" ++ "CRM-DEAL-0001" ++
         "&party_name=" ++ "CRM-DEAL-0001")) :=
  get_quotation_url_colocated_spec local_world env_ok "CRM-DEAL-0001" "Acme"
    rfl rfl

/-- Claim C3: `create_customer_in_erpnext` performs no remote or local call
unless the settings are enabled and the deal status is exactly the string
"Won": otherwise it returns with the world unchanged and an empty effect
trace. -/
theorem create_customer_noop_unless_won
    (w : World) (env : RemoteEnv) (doc : Deal) (method : String)
    (h : w.settings.enabled = false ∨ doc.status ≠ "Won") :
    create_customer_in_erpnext w env doc method = (w, [], Except.ok ()) :=
  create_customer_noop_aux w env doc method h

/-- Witness for C3: an open deal in an enabled world is a no-op. -/
theorem create_customer_noop_unless_won_witness :
    create_customer_in_erpnext local_world env_ok open_deal "on_update" =
      (local_world, [], Except.ok ()) :=
  create_customer_noop_unless_won local_world env_ok open_deal "on_update"
    (Or.inr (by decide))

/-- Claim C4: with the integration disabled, settings validation and customer
creation are complete no-ops: no property setter, no custom fields, no form
script, no remote or local call; the world is returned unchanged. -/
theorem disabled_settings_noop
    (w : World) (env : RemoteEnv) (doc : Deal) (method : String)
    (h : w.settings.enabled = false) :
    validate w env = (w, [], Except.ok ()) ∧
    create_customer_in_erpnext w env doc method = (w, [], Except.ok ()) :=
  ⟨validate_disabled_aux w env h,
   create_customer_noop_aux w env doc method (Or.inl h)⟩

/-- Witness for C4 at a concrete disabled world. -/
theorem disabled_settings_noop_witness :
    validate (mk_world disabled_settings) env_ok =
      (mk_world disabled_settings, [], Except.ok ()) ∧
    create_customer_in_erpnext (mk_world disabled_settings) env_ok sample_deal
        "on_update" =
      (mk_world disabled_settings, [], Except.ok ()) :=
  disabled_settings_noop (mk_world disabled_settings) env_ok sample_deal
    "on_update" rfl

/-- Claim C5: with the integration enabled, ERPNext expected in the current
site but absent from the installed apps, validation fails with the specific
user-facing message "ERPNext is not installed in the current site" and
performs none of the later steps: the world is unchanged and the effect trace
is empty. -/
theorem validate_erpnext_not_installed
    (w : World) (env : RemoteEnv)
    (hen : w.settings.enabled = true)
    (hloc : w.settings.is_erpnext_in_the_current_site = true)
    (habs : w.installed_apps.contains "erpnext" = false) :
    validate w env =
      (w, [],
       Except.error (Err.thrown "ERPNext is not installed in the current site")) := by
  simp only [validate, validate_if_erpnext_installed, hen, hloc, habs,
    erpnext_not_installed_error, if_true]

/-- Witness for C5 at a concrete world missing the ERP app. -/
theorem validate_erpnext_not_installed_witness :
    validate no_erpnext_world env_ok =
      (no_erpnext_world, [],
       Except.error (Err.thrown "ERPNext is not installed in the current site")) :=
  validate_erpnext_not_installed no_erpnext_world env_ok rfl rfl (by decide)

/-- Claim C9: `get_quotation_url` never reads its `organization` argument: for
a fixed world, environment and deal id, any two organization values give the
same returned world, effect trace and URL. -/
theorem get_quotation_url_ignores_organization
    (w : World) (env : RemoteEnv) (crm_deal o1 o2 : String) :
    get_quotation_url w env crm_deal o1 = get_quotation_url w env crm_deal o2 :=
  rfl

/-- Claim C1: with the integration enabled and ERPNext not in the current
site, when client construction succeeds, the deal is stored and the remote
prospect creation returns `pid`, `get_quotation_url` performs exactly one
remote prospect-creation call and returns a URL built on the remote site's
base URL with `quotation_to=Prospect`, `crm_deal=<deal id>` and the returned
prospect identifier as `party_name`. -/
theorem get_quotation_url_remote_spec
    (w : World) (env : RemoteEnv) (crm_deal organization pid : String)
    (doc : Deal)
    (hen : w.settings.enabled = true)
    (hloc : w.settings.is_erpnext_in_the_current_site = false)
    (hconn : env.connect_result = Except.ok ())
    (hdeal : lookup_deal w crm_deal = some doc)
    (hres : env.prospect_result = Except.ok pid) :
    ((get_quotation_url w env crm_deal organization).2.1.countP
        is_prospect_call = 1) ∧
    (get_quotation_url w env crm_deal organization).2.2 =
      Except.ok (w.settings.erpnext_site_url ++ "/app/quotation" ++
        "/new?quotation_to=Prospect&crm_deal=" ++ crm_deal ++
        "&party_name=" ++ pid) := by
  simp only [get_quotation_url, create_prospect_in_remote_site,
    get_erpnext_site_client, hen, hloc, hconn, hdeal, hres,
    Bool.true_eq_false, if_false, Bool.false_eq_true, List.countP,
    List.countP.go, is_prospect_call]
  exact ⟨by decide, trivial⟩

/-- Witness for C1 at a concrete remote world, deal and prospect id. -/
theorem get_quotation_url_remote_spec_witness :
    ((get_quotation_url remote_world env_ok "CRM-DEAL-0001" "Acme").2.1.countP
        is_prospect_call = 1) ∧
    (get_quotation_url remote_world env_ok "CRM-DEAL-0001" "Acme").2.2 =
      Except.ok (remote_world.settings.erpnext_site_url ++ "/app/quotation" ++
        "/new?quotation_to=Prospect&crm_deal=" ++ "CRM-DEAL-0001" ++
        "&party_name=" ++ "PROSP-0001") :=
  get_quotation_url_remote_spec remote_world env_ok "CRM-DEAL-0001" "Acme"
    "PROSP-0001" sample_deal rfl rfl rfl (by decide) rfl

/-- Claim C7: when the remote `post_api` call fails in prospect creation or in
customer creation, the error raised to the user is the fixed generic message
(a constant independent of the underlying exception text `e`), while the
traceback carrying `e` is written to the error log: the underlying cause is
preserved only in the log sink. -/
theorem remote_failure_generic_message
    (w : World) (env : RemoteEnv) (s : Settings) (crm_deal : String)
    (doc : Deal) (c : CustomerPayload) (e : String)
    (hconn : env.connect_result = Except.ok ())
    (hdeal : lookup_deal w crm_deal = some doc) :
    (env.prospect_result = Except.error e →
      create_prospect_in_remote_site w env crm_deal s =
        (log_error w (get_traceback e) (prospect_log_title s),
         [Effect.remoteConnect s.erpnext_site_url s.api_key s.api_secret,
          Effect.remotePostProspect (prospect_payload doc s)],
         Except.error (Err.thrown prospect_generic_error))) ∧
    (env.customer_result = Except.error e →
      create_customer_in_remote_site w env c s =
        (log_error w (get_traceback e) customer_log_title,
         [Effect.remoteConnect s.erpnext_site_url s.api_key s.api_secret,
          Effect.remotePostCustomer c],
         Except.error (Err.thrown customer_generic_error))) := by
  constructor
  · intro hp
    simp only [create_prospect_in_remote_site, get_erpnext_site_client, hconn,
      hdeal, hp]
  · intro hc
    simp only [create_customer_in_remote_site, get_erpnext_site_client, hconn,
      hc]

/-- Witness for C7 at a concrete failing environment. -/
theorem remote_failure_generic_message_witness :
    (env_post_fail.prospect_result =
        Except.error "ConnectionError: connection refused" →
      create_prospect_in_remote_site remote_world env_post_fail "CRM-DEAL-0001"
          remote_settings =
        (log_error remote_world
           (get_traceback "ConnectionError: connection refused")
           (prospect_log_title remote_settings),
         [Effect.remoteConnect remote_settings.erpnext_site_url
            remote_settings.api_key remote_settings.api_secret,
          Effect.remotePostProspect
            (prospect_payload sample_deal remote_settings)],
         Except.error (Err.thrown prospect_generic_error))) ∧
    (env_post_fail.customer_result =
        Except.error "ConnectionError: connection refused" →
      create_customer_in_remote_site remote_world env_post_fail
          (customer_payload sample_deal) remote_settings =
        (log_error remote_world
           (get_traceback "ConnectionError: connection refused")
           customer_log_title,
         [Effect.remoteConnect remote_settings.erpnext_site_url
            remote_settings.api_key remote_settings.api_secret,
          Effect.remotePostCustomer (customer_payload sample_deal)],
         Except.error (Err.thrown customer_generic_error))) :=
  remote_failure_generic_message remote_world env_post_fail remote_settings
    "CRM-DEAL-0001" sample_deal (customer_payload sample_deal)
    "ConnectionError: connection refused" rfl (by decide)

/-- Claim C8: `get_contacts` is the pure projection of the deal's contact
list: the result is exactly the element-wise projection of the source list
(hence same length, same order, i-th output is the projection of the i-th
input), and nothing is mutated. -/
theorem get_contacts_projection (doc : Deal) :
    get_contacts doc = doc.contacts.map project_contact ∧
    (get_contacts doc).length = doc.contacts.length := by
  have h : get_contacts doc = doc.contacts.map project_contact := by
    unfold get_contacts
    rw [foldl_append_eq_map]
    simp
  exact ⟨h, by rw [h, List.length_map]⟩

/-- Claim C10: when client construction fails with exception `e`,
`create_customer_in_remote_site` lets it propagate raw — no log entry, no
generic user-facing message, world unchanged — while
`create_prospect_in_remote_site` in the same environment logs the traceback
and raises the generic message, because only the latter constructs the client
inside its try block. -/
theorem customer_connect_failure_raw
    (w : World) (env : RemoteEnv) (s : Settings) (c : CustomerPayload)
    (crm_deal e : String)
    (hconn : env.connect_result = Except.error e) :
    create_customer_in_remote_site w env c s =
      (w, [Effect.remoteConnect s.erpnext_site_url s.api_key s.api_secret],
       Except.error (Err.raw e)) ∧
    create_prospect_in_remote_site w env crm_deal s =
      (log_error w (get_traceback e) (prospect_log_title s),
       [Effect.remoteConnect s.erpnext_site_url s.api_key s.api_secret],
       Except.error (Err.thrown prospect_generic_error)) := by
  constructor
  · simp only [create_customer_in_remote_site, get_erpnext_site_client, hconn]
  · simp only [create_prospect_in_remote_site, get_erpnext_site_client, hconn]

/-- Witness for C10 at a concrete environment whose client construction fails. -/
theorem customer_connect_failure_raw_witness :
    create_customer_in_remote_site remote_world env_connect_fail
        (customer_payload sample_deal) remote_settings =
      (remote_world,
       [Effect.remoteConnect remote_settings.erpnext_site_url
          remote_settings.api_key remote_settings.api_secret],
       Except.error (Err.raw "AuthError: invalid api key")) ∧
    create_prospect_in_remote_site remote_world env_connect_fail "CRM-DEAL-0001"
        remote_settings =
      (log_error remote_world (get_traceback "AuthError: invalid api key")
         (prospect_log_title remote_settings),
       [Effect.remoteConnect remote_settings.erpnext_site_url
          remote_settings.api_key remote_settings.api_secret],
       Except.error (Err.thrown prospect_generic_error)) :=
  customer_connect_failure_raw remote_world env_connect_fail remote_settings
    (customer_payload sample_deal) "CRM-DEAL-0001" "AuthError: invalid api key"
    rfl

/-- Claim C6: the two name-keyed provisioning steps are idempotent creates.
When the quotation-filter property setter and a form script named "Create
Quotation from CRM Deal" already exist — the stored script body being
arbitrary, in particular possibly different from the script constant —
running validation leaves both record collections exactly as they were (no
duplicate, no overwrite), and in the enabled, co-located, ERP-installed
configuration the whole validation succeeds with no change and no error. -/
theorem validate_name_keyed_idempotent
    (w : World) (env : RemoteEnv)
    (hps : w.property_setters.contains quotation_to_property_setter_name = true)
    (hfs : (w.form_scripts.map Prod.fst).contains crm_form_script_name = true) :
    (validate w env).1.property_setters = w.property_setters ∧
    (validate w env).1.form_scripts = w.form_scripts ∧
    (w.settings.enabled = true →
     w.settings.is_erpnext_in_the_current_site = true →
     w.installed_apps.contains "erpnext" = true →
     (validate w env).1 = w ∧ (validate w env).2.2 = Except.ok ()) := by
  have hps' : quotation_to_property_setter_name ∈ w.property_setters := by
    simpa using hps
  have hfs' : crm_form_script_name ∈ w.form_scripts.map Prod.fst := by
    simpa using hfs
  cases hen : w.settings.enabled with
  | false =>
      refine ⟨?_, ?_, ?_⟩ <;> simp [validate, hen]
  | true =>
    cases hloc : w.settings.is_erpnext_in_the_current_site with
    | true =>
      by_cases hinst : "erpnext" ∈ w.installed_apps
      · have hv : validate w env = (w, [Effect.localCreateCustomFields],
            Except.ok ()) := by
          simp [validate, validate_if_erpnext_installed,
            add_quotation_to_option, create_custom_fields,
            create_crm_form_script, hen, hloc, hinst, hps', hfs']
        exact ⟨by rw [hv], by rw [hv], fun _ _ _ => ⟨by rw [hv], by rw [hv]⟩⟩
      · refine ⟨?_, ?_, ?_⟩ <;>
          simp [validate, validate_if_erpnext_installed, hen, hloc, hinst]
    | false =>
      cases hc : env.connect_result with
      | error e =>
          refine ⟨?_, ?_, ?_⟩ <;>
            simp [validate, validate_if_erpnext_installed,
              add_quotation_to_option, create_custom_fields,
              create_custom_fields_in_remote_site, get_erpnext_site_client,
              hen, hloc, hc]
      | ok u =>
        cases hcf : env.custom_fields_result with
        | error e =>
            refine ⟨?_, ?_, ?_⟩ <;>
              simp [validate, validate_if_erpnext_installed,
                add_quotation_to_option, create_custom_fields,
                create_custom_fields_in_remote_site, get_erpnext_site_client,
                log_error, hen, hloc, hc, hcf]
        | ok u2 =>
            refine ⟨?_, ?_, ?_⟩ <;>
              simp [validate, validate_if_erpnext_installed,
                add_quotation_to_option, create_custom_fields,
                create_custom_fields_in_remote_site, get_erpnext_site_client,
                create_crm_form_script, hen, hloc, hc, hcf, hfs']

/-- Witness for C6 at a concrete world where both records already exist, the
form script body differing from the script constant. -/
theorem validate_name_keyed_idempotent_witness :
    (validate provisioned_world env_ok).1.property_setters =
      provisioned_world.property_setters ∧
    (validate provisioned_world env_ok).1.form_scripts =
      provisioned_world.form_scripts ∧
    (provisioned_world.settings.enabled = true →
     provisioned_world.settings.is_erpnext_in_the_current_site = true →
     provisioned_world.installed_apps.contains "erpnext" = true →
     (validate provisioned_world env_ok).1 = provisioned_world ∧
     (validate provisioned_world env_ok).2.2 = Except.ok ()) :=
  validate_name_keyed_idempotent provisioned_world env_ok (by decide) (by decide)

end ERPNextCRM
